import Mathlib

/-!
Verification development for the `venice-image` command-line client
(`src/venice_image_gen.py`).

Python strings are modelled as lists of Unicode code points (`List Nat`);
`pyStr` injects Lean string literals.  Python `float` values reaching the
aspect-ratio computation are decimal literals; they are modelled exactly as
fractions with a power-of-ten denominator (`PyNum`), together with a proved
bridge to `ℚ`.  The source manipulates IEEE-754 doubles; every concrete token
appearing in a theorem below has an exactly representable value and an exactly
computed quotient, where double and rational arithmetic agree.
-/

/-- A Python string, as its list of Unicode code points. -/
abbrev Str := List Nat

/-- Code points of a Lean string literal. -/
def pyStr (s : String) : Str := s.toList.map Char.toNat

/-- `str.lower` on one code point (ASCII range, which covers every token the
program compares against). -/
def pyCharLower (c : Nat) : Nat := if 65 ≤ c ∧ c ≤ 90 then c + 32 else c

/-- `str.lower`. -/
def pyLower (s : Str) : Str := s.map pyCharLower

/-- `str.split(sep)` for a one-character separator: the maximal run of
pieces between occurrences of `sep` (empty pieces included), as in Python. -/
def pySplit (sep : Nat) : Str → List Str
  | [] => [[]]
  | c :: cs =>
    if c = sep then [] :: pySplit sep cs
    else
      match pySplit sep cs with
      | p :: ps => (c :: p) :: ps
      | [] => [[c]]

/-- ASCII decimal digit. -/
def isDigit (c : Nat) : Bool := decide (48 ≤ c ∧ c ≤ 57)

/-- Value of a digit run (most significant first). -/
def digitsVal (s : Str) : Nat := s.foldl (fun acc c => 10 * acc + (c - 48)) 0

/-- The exact value of a Python decimal literal: an integer numerator over a
positive power-of-ten denominator.  Stands in for the IEEE-754 double the
source manipulates; arithmetic on `PyNum` below is exact. -/
structure PyNum where
  num : ℤ
  den : ℤ
deriving DecidableEq, Repr

/-- The rational value of a `PyNum`. -/
def PyNum.toRat (a : PyNum) : ℚ := (a.num : ℚ) / (a.den : ℚ)

/-- The Python builtin `float(s)`, restricted to the grammar
`[+|-] digits [. digits]` (with at least one digit): exponents, `inf`/`nan`,
underscores and surrounding whitespace are not modelled.  Returns the exact
decimal value. -/
def pyFloatBody (s : Str) : Option PyNum :=
  match pySplit 46 s with
  | [ip] =>
    if ip ≠ [] ∧ ip.all isDigit then some ⟨digitsVal ip, 1⟩ else none
  | [ip, fp] =>
    if (ip ≠ [] ∨ fp ≠ []) ∧ ip.all isDigit ∧ fp.all isDigit then
      some ⟨digitsVal ip * 10 ^ fp.length + digitsVal fp, (10 : ℤ) ^ fp.length⟩
    else none
  | _ => none

/-- `float(s)` with the optional leading sign. -/
def pyFloat (s : Str) : Option PyNum :=
  match s with
  | 43 :: rest => pyFloatBody rest
  | 45 :: rest => (pyFloatBody rest).map (fun a => ⟨-a.num, a.den⟩)
  | _ => pyFloatBody s

/-- `a >= b` on exact values; sound when both denominators are positive,
which holds for every `PyNum` built by `pyFloat`. -/
def pyGe (a b : PyNum) : Bool := decide (b.num * a.den ≤ a.num * b.den)

/-- Truthiness / the zero test `a == 0.0`. -/
def pyIsZero (a : PyNum) : Bool := a.num == 0

/-- `a * b` on exact values. -/
def pyMul (a b : PyNum) : PyNum := ⟨a.num * b.num, a.den * b.den⟩

/-- `a / b` on exact values (the caller guards `b` against zero, as the
source's `ZeroDivisionError` path is modelled separately). -/
def pyDiv (a b : PyNum) : PyNum := ⟨a.num * b.den, a.den * b.num⟩

/-- Python `int(x)`: truncation toward zero (`Int.tdiv` truncates toward
zero for any sign of numerator and denominator). -/
def pyTruncVal (a : PyNum) : ℤ := a.num.tdiv a.den

/-- Truncation toward zero of a rational. -/
def ratTrunc (q : ℚ) : ℤ := if 0 ≤ q then ⌊q⌋ else ⌈q⌉

/-- `((n + 7) // 8) * 8` with Python floor division: the least multiple of 8
that is `≥ n`. -/
def ceil8 (n : ℤ) : ℤ := (n + 7).fdiv 8 * 8

/-- The fixed preset table `VeniceImageGenerator.ASPECT_RATIOS`
(`src/venice_image_gen.py:25-38`), in source order. -/
def ASPECT_RATIOS : List (Str × ℤ × ℤ) :=
  [ (pyStr "square", 1024, 1024)
  , (pyStr "1:1", 1024, 1024)
  , (pyStr "landscape", 1264, 848)
  , (pyStr "3:2", 1264, 848)
  , (pyStr "cinema", 1280, 720)
  , (pyStr "16:9", 1280, 720)
  , (pyStr "tall", 720, 1280)
  , (pyStr "9:16", 720, 1280)
  , (pyStr "portrait", 848, 1264)
  , (pyStr "2:3", 848, 1264)
  , (pyStr "instagram", 1011, 1264)
  , (pyStr "4:5", 1011, 1264)
  ]

/-- Dictionary lookup in the preset table. -/
def lookupAR (s : Str) : Option (ℤ × ℤ) :=
  (ASPECT_RATIOS.find? (fun e => e.1 == s)).map (fun e => e.2)

/-- Outcome of `parse_aspect_ratio`: a dimension pair, a `ValueError`
("Invalid aspect ratio: …", caught by the caller), or an uncaught
`ZeroDivisionError` (a zero ratio component used as divisor). -/
inductive ParseAR where
  | ok (width height : ℤ)
  | invalid
  | zeroDiv
deriving DecidableEq, Repr

/-- `parse_aspect_ratio` (`src/venice_image_gen.py:141-168`). -/
def parse_aspect_ratio (ar_string : Str) : ParseAR :=
  match lookupAR (pyLower ar_string) with
  | some (w, h) => .ok w h
  | none =>
    if 58 ∈ ar_string then
      match pySplit 58 ar_string with
      | [sa, sb] =>
        match pyFloat sa, pyFloat sb with
        | some w_ratio, some h_ratio =>
          if pyGe w_ratio h_ratio then
            if pyIsZero w_ratio then .zeroDiv
            else
              let width : ℤ := 1024
              let height : ℤ := pyTruncVal (pyDiv (pyMul ⟨1024, 1⟩ h_ratio) w_ratio)
              .ok (ceil8 width) (ceil8 height)
          else
            if pyIsZero h_ratio then .zeroDiv
            else
              let height : ℤ := 1024
              let width : ℤ := pyTruncVal (pyDiv (pyMul ⟨1024, 1⟩ w_ratio) h_ratio)
              .ok (ceil8 width) (ceil8 height)
        | _, _ => .invalid
      | _ => .invalid
    else .invalid

/-! ### Bridge from exact `PyNum` arithmetic to `ℚ` -/

lemma floor_intCast_div (n d : ℤ) (hd : 0 < d) : ⌊(n : ℚ) / (d : ℚ)⌋ = n / d := by
  have h : (d : ℚ) = ((d.toNat : ℕ) : ℚ) := by exact_mod_cast (Int.toNat_of_nonneg hd.le).symm
  rw [h, Rat.floor_intCast_div_natCast n d.toNat, Int.toNat_of_nonneg hd.le]

lemma tdiv_eq_ratTrunc_pos (n d : ℤ) (hd : 0 < d) :
    n.tdiv d = ratTrunc ((n : ℚ) / (d : ℚ)) := by
  have hdq : (0 : ℚ) < (d : ℚ) := by exact_mod_cast hd
  rcases le_or_lt 0 n with hn | hn
  · have hq : (0 : ℚ) ≤ (n : ℚ) / (d : ℚ) := div_nonneg (by exact_mod_cast hn) hdq.le
    rw [ratTrunc, if_pos hq, floor_intCast_div n d hd, Int.tdiv_eq_ediv hn hd.le]
  · have hq : (n : ℚ) / (d : ℚ) < 0 := div_neg_of_neg_of_pos (by exact_mod_cast hn) hdq
    rw [ratTrunc, if_neg (not_le.mpr hq)]
    have h2 : ⌈(n : ℚ) / (d : ℚ)⌉ = -⌊-((n : ℚ) / (d : ℚ))⌋ := by
      rw [Int.floor_neg, neg_neg]
    have h3 : -((n : ℚ) / (d : ℚ)) = ((-n : ℤ) : ℚ) / (d : ℚ) := by push_cast; ring
    rw [h2, h3, floor_intCast_div (-n) d hd,
      show n = -(-n) by rw [neg_neg], Int.neg_tdiv,
      Int.tdiv_eq_ediv (by omega) hd.le, neg_neg]

lemma tdiv_eq_ratTrunc (n d : ℤ) (hd : d ≠ 0) :
    n.tdiv d = ratTrunc ((n : ℚ) / (d : ℚ)) := by
  rcases lt_or_gt_of_ne hd with h | h
  · have hpos := tdiv_eq_ratTrunc_pos (-n) (-d) (by omega)
    rw [Int.neg_tdiv_neg] at hpos
    rw [hpos]
    congr 1
    push_cast
    rw [neg_div_neg_eq]
  · exact tdiv_eq_ratTrunc_pos n d h

lemma pyTruncVal_toRat (a : PyNum) (h : a.den ≠ 0) : pyTruncVal a = ratTrunc a.toRat :=
  tdiv_eq_ratTrunc a.num a.den h

lemma toRat_pyMul (a b : PyNum) : (pyMul a b).toRat = a.toRat * b.toRat := by
  simp only [pyMul, PyNum.toRat]
  push_cast
  rw [div_mul_div_comm]

lemma toRat_pyDiv (a b : PyNum) : (pyDiv a b).toRat = a.toRat / b.toRat := by
  simp only [pyDiv, PyNum.toRat]
  push_cast
  simp only [div_eq_mul_inv, mul_inv, inv_inv]
  ring

lemma pyGe_iff (a b : PyNum) (ha : 0 < a.den) (hb : 0 < b.den) :
    pyGe a b = true ↔ b.toRat ≤ a.toRat := by
  rw [pyGe, decide_eq_true_eq, PyNum.toRat, PyNum.toRat,
    div_le_div_iff₀ (by exact_mod_cast hb) (by exact_mod_cast ha)]
  constructor <;> intro h <;> exact_mod_cast h

lemma pyIsZero_iff (a : PyNum) (ha : a.den ≠ 0) : pyIsZero a = true ↔ a.toRat = 0 := by
  rw [pyIsZero, beq_iff_eq, PyNum.toRat, div_eq_zero_iff]
  constructor
  · intro h; left; exact_mod_cast h
  · rintro (h | h)
    · exact_mod_cast h
    · exact absurd (by exact_mod_cast h : a.den = 0) ha

lemma pyFloatBody_den_pos {s : Str} {a : PyNum} (h : pyFloatBody s = some a) : 0 < a.den := by
  unfold pyFloatBody at h
  split at h
  · split at h
    · injection h with h; subst h; norm_num
    · cases h
  · split at h
    · injection h with h; subst h; positivity
    · cases h
  · cases h

lemma pyFloat_den_pos {s : Str} {a : PyNum} (h : pyFloat s = some a) : 0 < a.den := by
  unfold pyFloat at h
  split at h
  · exact pyFloatBody_den_pos h
  · rcases Option.map_eq_some'.mp h with ⟨b, hb, rfl⟩
    simpa using pyFloatBody_den_pos hb
  · exact pyFloatBody_den_pos h

/-! ### Structure of `pySplit` and `pyLower` -/

lemma pySplit_eq_single {sep : Nat} : ∀ {s : Str}, sep ∉ s → pySplit sep s = [s]
  | [], _ => rfl
  | c :: cs, h => by
    have hc : ¬ c = sep := fun e => h (e ▸ List.mem_cons_self c cs)
    have ih := pySplit_eq_single (s := cs) (fun m => h (List.mem_cons_of_mem c m))
    simp [pySplit, hc, ih]

lemma mem_of_pySplit_pair {sep : Nat} {s a b : Str} (h : pySplit sep s = [a, b]) : sep ∈ s := by
  by_contra hm
  rw [pySplit_eq_single hm] at h
  simp at h

lemma pyCharLower_fix {c d : Nat} (h : pyCharLower c = d) (hd : d < 97 ∨ 122 < d) : c = d := by
  unfold pyCharLower at h
  split at h <;> omega

lemma mem_pyLower_58 {s : Str} : 58 ∈ pyLower s ↔ 58 ∈ s := by
  unfold pyLower
  rw [List.mem_map]
  constructor
  · rintro ⟨c, hc, he⟩
    rwa [pyCharLower_fix he (by omega)] at hc
  · intro h
    exact ⟨58, h, by decide⟩

lemma pyLower_eq_self_of_no_letters : ∀ {s k : Str}, pyLower s = k →
    (∀ c ∈ k, c < 97 ∨ 122 < c) → s = k := by
  intro s
  induction s with
  | nil =>
    intro k h _
    simpa [pyLower] using h
  | cons c cs ih =>
    intro k h hk
    cases k with
    | nil => simp [pyLower] at h
    | cons d ds =>
      rw [pyLower, List.map_cons] at h
      injection h with h1 h2
      have hc := pyCharLower_fix h1 (hk d (List.mem_cons_self d ds))
      rw [hc, ih h2 (fun x hx => hk x (List.mem_cons_of_mem d hx))]

lemma lookupAR_some {s : Str} {v : ℤ × ℤ} (h : lookupAR s = some v) :
    ∃ e ∈ ASPECT_RATIOS, e.1 = s := by
  unfold lookupAR at h
  rcases Option.map_eq_some'.mp h with ⟨e, he, rfl⟩
  exact ⟨e, List.mem_of_find?_eq_some he, by simpa using List.find?_some he⟩

/-! ### Claims about the aspect-ratio resolver -/

/-- C4: every token of the 12-entry preset table resolves, case-insensitively
via lowercasing, to exactly its fixed pair, returned immediately; in
particular `"16:9"` yields the preset pair `(1280, 720)` and not the value
`(1024, 576)` that the custom-ratio computation would produce. -/
theorem C4_preset_pairs :
    ASPECT_RATIOS.length = 12 ∧
    (∀ s w h, lookupAR (pyLower s) = some (w, h) → parse_aspect_ratio s = .ok w h) ∧
    parse_aspect_ratio (pyStr "16:9") = .ok 1280 720 ∧
    ((1280, 720) : ℤ × ℤ) ≠ (1024, 576) ∧
    ceil8 (ratTrunc ((1024 * 9 : ℚ) / 16)) = 576 := by
  refine ⟨by decide, ?_, by decide, by decide, ?_⟩
  · intro s w h hl
    unfold parse_aspect_ratio
    simp only [hl]
  · have h1 : (1024 * 9 : ℚ) / 16 = ((576 : ℤ) : ℚ) := by norm_num
    have h2 : ratTrunc ((576 : ℤ) : ℚ) = 576 := by
      rw [ratTrunc, if_pos (by norm_num), Int.floor_intCast]
    rw [h1, h2]; decide

/-- Witness for C4 at a concrete uppercase preset token. -/
theorem C4_preset_pairs_witness :
    parse_aspect_ratio (pyStr "SQUARE") = .ok 1024 1024 :=
  C4_preset_pairs.2.1 (pyStr "SQUARE") 1024 1024 (by decide)

/-- C8: the resolver yields the `ValueError` outcome ("Invalid aspect
ratio") for every token without a `":"` that is not a preset, and for every
`":"`-containing token one of whose split components fails to parse as a
number; no dimension pair is returned for such tokens. -/
theorem C8_invalid_tokens :
    (∀ s : Str, 58 ∉ s → lookupAR (pyLower s) = none →
      parse_aspect_ratio s = .invalid) ∧
    (∀ s : Str, 58 ∈ s → (∃ p ∈ pySplit 58 s, pyFloat p = none) →
      parse_aspect_ratio s = .invalid) := by
  constructor
  · intro s hmem hl
    unfold parse_aspect_ratio
    simp only [hl, if_neg hmem]
  · intro s hmem hex
    rcases hl : lookupAR (pyLower s) with _ | v
    · unfold parse_aspect_ratio
      simp only [hl, if_pos hmem]
      split
      · next sa sb heq =>
        split
        · next A B hfa hfb =>
          exfalso
          rw [heq] at hex
          rcases hex with ⟨p, hp, hnone⟩
          simp only [List.mem_cons, List.not_mem_nil, or_false] at hp
          rcases hp with rfl | rfl
          · rw [hfa] at hnone; cases hnone
          · rw [hfb] at hnone; cases hnone
        · rfl
      · rfl
    · exfalso
      obtain ⟨e, he, hk⟩ := lookupAR_some hl
      simp only [ASPECT_RATIOS, List.mem_cons, List.not_mem_nil, or_false] at he
      rcases he with rfl|rfl|rfl|rfl|rfl|rfl|rfl|rfl|rfl|rfl|rfl|rfl <;>
        first
        | exact absurd (mem_pyLower_58.mpr hmem) (by rw [← hk]; decide)
        | (have hs := pyLower_eq_self_of_no_letters hk.symm (by decide)
           subst hs
           exact absurd hex (by decide))

/-- Witness for C8: a separator-free non-preset token and a token with a
non-numeric component. -/
theorem C8_invalid_tokens_witness :
    parse_aspect_ratio (pyStr "foo") = .invalid ∧
    parse_aspect_ratio (pyStr "a:b") = .invalid :=
  ⟨C8_invalid_tokens.1 (pyStr "foo") (by decide) (by decide),
   C8_invalid_tokens.2 (pyStr "a:b") (by decide) (by decide)⟩

/-- C2 (amended): for a custom non-preset ratio token splitting into two
numeric components with values `W` and `H`, when `W ≥ H` and `W ≠ 0` the
resolver returns width `1024` and height equal to the ceiling-to-8 of the
**truncation toward zero** (not the rounding) of `1024 × H / W`; symmetric
when `H > W` and `H ≠ 0` (a zero divisor instead raises an uncaught
`ZeroDivisionError`).  `ceil8` is the least multiple of 8 that is `≥` its
argument, and `"4:3"` yields `(1024, 768)`. -/
theorem C2_custom_ratio_dims (s sa sb : Str) (A B : PyNum)
    (hlook : lookupAR (pyLower s) = none)
    (hsplit : pySplit 58 s = [sa, sb])
    (ha : pyFloat sa = some A) (hb : pyFloat sb = some B) :
    (pyGe A B = true → pyIsZero A = false →
      B.toRat ≤ A.toRat ∧
      parse_aspect_ratio s = .ok 1024 (ceil8 (ratTrunc (1024 * B.toRat / A.toRat)))) ∧
    (pyGe A B = false → pyIsZero B = false →
      A.toRat < B.toRat ∧
      parse_aspect_ratio s = .ok (ceil8 (ratTrunc (1024 * A.toRat / B.toRat))) 1024) ∧
    (∀ n : ℤ, ceil8 n % 8 = 0 ∧ n ≤ ceil8 n ∧ ceil8 n < n + 8) ∧
    parse_aspect_ratio (pyStr "4:3") = .ok 1024 768 := by
  have hA := pyFloat_den_pos ha
  have hB := pyFloat_den_pos hb
  have hmem : 58 ∈ s := mem_of_pySplit_pair hsplit
  have hone : (PyNum.mk 1024 1).toRat = (1024 : ℚ) := by
    norm_num [PyNum.toRat]
  refine ⟨?_, ?_, ?_, by decide⟩
  · intro hge hz
    have hAnum : A.num ≠ 0 := by simpa [pyIsZero] using hz
    refine ⟨(pyGe_iff A B hA hB).mp hge, ?_⟩
    unfold parse_aspect_ratio
    simp only [hlook, if_pos hmem, hsplit, ha, hb, hge, hz, if_true, Bool.false_eq_true,
      if_false]
    have hden : (pyDiv (pyMul ⟨1024, 1⟩ B) A).den ≠ 0 := by
      simp only [pyDiv, pyMul]
      exact mul_ne_zero (mul_ne_zero one_ne_zero hB.ne') hAnum
    rw [pyTruncVal_toRat _ hden, toRat_pyDiv, toRat_pyMul, hone,
      show ceil8 1024 = 1024 by decide]
  · intro hge hz
    have hBnum : B.num ≠ 0 := by simpa [pyIsZero] using hz
    have hlt : A.toRat < B.toRat :=
      not_le.mp (fun hle => by rw [(pyGe_iff A B hA hB).mpr hle] at hge; cases hge)
    refine ⟨hlt, ?_⟩
    unfold parse_aspect_ratio
    simp only [hlook, if_pos hmem, hsplit, ha, hb, hge, hz, Bool.false_eq_true, if_false]
    have hden : (pyDiv (pyMul ⟨1024, 1⟩ A) B).den ≠ 0 := by
      simp only [pyDiv, pyMul]
      exact mul_ne_zero (mul_ne_zero one_ne_zero hA.ne') hBnum
    rw [pyTruncVal_toRat _ hden, toRat_pyDiv, toRat_pyMul, hone,
      show ceil8 1024 = 1024 by decide]
  · intro n
    rw [ceil8, Int.fdiv_eq_ediv _ (by norm_num)]
    omega

/-- Witness for C2 at the token `"200:100"`. -/
theorem C2_custom_ratio_dims_witness :
    (PyNum.mk 100 1).toRat ≤ (PyNum.mk 200 1).toRat ∧
    parse_aspect_ratio (pyStr "200:100") =
      .ok 1024 (ceil8 (ratTrunc (1024 * (PyNum.mk 100 1).toRat / (PyNum.mk 200 1).toRat))) :=
  (C2_custom_ratio_dims (pyStr "200:100") (pyStr "200") (pyStr "100") ⟨200, 1⟩ ⟨100, 1⟩
      (by decide) (by decide) (by decide) (by decide)).1 (by decide) (by decide)

/-- Counterexample to C2 as stated: on the token `"4096:2915"` the source
truncates `1024 × 2915 / 4096 = 728.740234375` to `728` (already a multiple
of 8), while the claim's rounding rule would give `ceil8 (round …) = 736`. -/
theorem C2_round_rule_counterexample :
    parse_aspect_ratio (pyStr "4096:2915") = .ok 1024 728 ∧
    ceil8 (round ((1024 * 2915 : ℚ) / 4096)) = 736 ∧ (728 : ℤ) ≠ 736 := by
  refine ⟨by decide, ?_, by decide⟩
  have h : round ((1024 * 2915 : ℚ) / 4096) = 729 := by norm_num [round_eq]
  rw [h]; decide

/-- C3 (amended): on every custom (non-preset) token for which the resolver
returns a pair, the dimension on the longer-ratio side equals 1024 — so at
least one returned dimension is positive; the claim's assertion that *both*
are positive fails (see the counterexample `"0:1"`), as component signs are
never validated. -/
theorem C3_custom_base_side (s : Str) (w h : ℤ)
    (hlook : lookupAR (pyLower s) = none)
    (hok : parse_aspect_ratio s = .ok w h) :
    w = 1024 ∨ h = 1024 := by
  unfold parse_aspect_ratio at hok
  split at hok
  · next w' h' heq =>
    rw [hlook] at heq
    cases heq
  · split at hok
    · split at hok
      · split at hok
        · split at hok
          · split at hok
            · cases hok
            · injection hok with hw _
              left
              rw [← hw]; decide
          · split at hok
            · cases hok
            · injection hok with _ hh
              right
              rw [← hh]; decide
        · cases hok
      · cases hok
    · cases hok

/-- Witness for C3 (amended) at the token `"0:1"`. -/
theorem C3_custom_base_side_witness : (0 : ℤ) = 1024 ∨ (1024 : ℤ) = 1024 :=
  C3_custom_base_side (pyStr "0:1") 0 1024 (by decide) (by decide)

/-- Counterexample to C3 as stated: the token `"0:1"` resolves to the pair
`(0, 1024)`, whose width is not positive. -/
theorem C3_positive_dims_counterexample :
    parse_aspect_ratio (pyStr "0:1") = .ok 0 1024 ∧ ¬ (0 : ℤ) > 0 := by
  exact ⟨by decide, by decide⟩

/-! ### File persister: the `save_image` path computation -/

/-- `pathlib.Path(p).name`: the last non-empty `/`-separated component
(`.` and `..` components are not specially treated; no path in the theorems
below uses them). -/
def pyName (p : Str) : Str :=
  ((pySplit 47 p).filter (fun part => !part.isEmpty)).getLastD []

/-- Index of the last `.` (code point 46) in a string, if any. -/
def lastDot : Str → Option Nat
  | [] => none
  | c :: cs =>
    match lastDot cs with
    | some i => some (i + 1)
    | none => if c = 46 then some 0 else none

/-- `pathlib.Path(p).stem`: the final component without its extension; the
split happens only when the last dot is neither first nor last in the name. -/
def pyStem (p : Str) : Str :=
  match lastDot (pyName p) with
  | some i => if 0 < i ∧ i < (pyName p).length - 1 then (pyName p).take i else pyName p
  | none => pyName p

/-- `pathlib.Path(p).suffix`: the extension of the final component, from the
last dot on, under the same condition as `pyStem`. -/
def pySuffix (p : Str) : Str :=
  match lastDot (pyName p) with
  | some i => if 0 < i ∧ i < (pyName p).length - 1 then (pyName p).drop i else []
  | none => []

/-- Decimal digit string of `n` (`str(n)` in Python, for `n ≥ 1`), computed
with structural fuel so that concrete instances evaluate in the kernel. -/
def decDigitsAux : Nat → Nat → Str
  | _, 0 => []
  | 0, _ + 1 => []
  | fuel + 1, n + 1 => decDigitsAux fuel ((n + 1) / 10) ++ [48 + (n + 1) % 10]

/-- Decimal digit string of `n`. -/
def decDigits (n : Nat) : Str := decDigitsAux n n

lemma decDigitsAux_eq : ∀ fuel n, n ≤ fuel →
    decDigitsAux fuel n = (Nat.digits 10 n).reverse.map (fun d => 48 + d) := by
  intro fuel
  induction fuel with
  | zero =>
    intro n hn
    interval_cases n
    simp [decDigitsAux]
  | succ f ih =>
    intro n hn
    match n with
    | 0 => simp [decDigitsAux]
    | m + 1 =>
      have hdiv : (m + 1) / 10 ≤ f := by omega
      simp only [decDigitsAux, ih ((m + 1) / 10) hdiv,
        Nat.digits_def' (by norm_num : (1 : ℕ) < 10) (Nat.succ_pos m),
        List.reverse_cons, List.map_append, List.map_cons, List.map_nil]

lemma decDigits_injective : Function.Injective decDigits := by
  intro m n h
  rw [decDigits, decDigits, decDigitsAux_eq m m le_rfl, decDigitsAux_eq n n le_rfl] at h
  exact Nat.digits.injective 10 (List.reverse_injective
    ((List.map_injective_iff.mpr (fun a b hab => by omega)) h))

/-- The collision candidate `f"{name_part}_{counter}{ext_part}"` built from
`Path(original_filename).stem` and `Path(original_filename).suffix`
(`src/venice_image_gen.py:125-127`). -/
def mkCand (orig : Str) (k : Nat) : Str :=
  pyStem orig ++ (95 :: decDigits k) ++ pySuffix orig

lemma mkCand_injective (orig : Str) : Function.Injective (mkCand orig) := by
  intro j k h
  unfold mkCand at h
  rw [List.append_assoc, List.append_assoc] at h
  have h1 := List.append_cancel_left h
  rw [List.cons_append, List.cons_append] at h1
  injection h1 with _ h2
  exact decDigits_injective (List.append_cancel_right h2)

/-- The `while Path(filename).exists()` loop of `save_image`
(`src/venice_image_gen.py:122-128`): from `counter` on, the first candidate
not present in `fs`.  The fuel argument only bounds the recursion;
`exists_fresh` below shows that `fs.length + 1` trials always suffice. -/
def findFresh (fs : List Str) (orig : Str) : Nat → Nat → Str
  | counter, 0 => mkCand orig counter
  | counter, fuel + 1 =>
    if mkCand orig counter ∈ fs then findFresh fs orig (counter + 1) fuel
    else mkCand orig counter

lemma findFresh_spec (fs : List Str) (orig : Str) :
    ∀ fuel counter, (∃ j, j < fuel ∧ mkCand orig (counter + j) ∉ fs) →
      ∃ j, j < fuel ∧ findFresh fs orig counter fuel = mkCand orig (counter + j) ∧
        mkCand orig (counter + j) ∉ fs ∧ ∀ i, i < j → mkCand orig (counter + i) ∈ fs := by
  intro fuel
  induction fuel with
  | zero =>
    rintro counter ⟨j, hj, _⟩
    omega
  | succ f ih =>
    intro counter hex
    by_cases hc : mkCand orig counter ∈ fs
    · have hex' : ∃ j, j < f ∧ mkCand orig (counter + 1 + j) ∉ fs := by
        rcases hex with ⟨j, hj, hnot⟩
        match j with
        | 0 => exact absurd (by simpa using hc) (by simpa using hnot)
        | j' + 1 =>
          exact ⟨j', by omega, by
            rw [show counter + 1 + j' = counter + (j' + 1) by omega]; exact hnot⟩
      rcases ih (counter + 1) hex' with ⟨j, hj, heq, hnot, hall⟩
      refine ⟨j + 1, by omega, ?_, ?_, ?_⟩
      · simp only [findFresh, if_pos hc]
        rw [show counter + (j + 1) = counter + 1 + j by omega]
        exact heq
      · rw [show counter + (j + 1) = counter + 1 + j by omega]
        exact hnot
      · intro i hi
        match i with
        | 0 => simpa using hc
        | i' + 1 =>
          rw [show counter + (i' + 1) = counter + 1 + i' by omega]
          exact hall i' (by omega)
    · exact ⟨0, by omega, by simp [findFresh, hc], by simpa using hc,
        fun i hi => by omega⟩

lemma exists_fresh (fs : List Str) (orig : Str) :
    ∃ j, j < fs.length + 1 ∧ mkCand orig (1 + j) ∉ fs := by
  by_contra hall
  push_neg at hall
  have hnodup : ((List.range (fs.length + 1)).map (fun j => mkCand orig (1 + j))).Nodup := by
    refine List.Nodup.map ?_ (List.nodup_range _)
    intro a b hab
    have := mkCand_injective orig hab
    omega
  have hlen : ((List.range (fs.length + 1)).map (fun j => mkCand orig (1 + j))).length
      = fs.length + 1 := by
    rw [List.length_map, List.length_range]
  have hsub : ((List.range (fs.length + 1)).map (fun j => mkCand orig (1 + j))).toFinset
      ⊆ fs.toFinset := by
    intro x hx
    rcases List.mem_map.mp (List.mem_toFinset.mp hx) with ⟨j, hj, rfl⟩
    exact List.mem_toFinset.mpr (hall j (List.mem_range.mp hj))
  have h1 := List.toFinset_card_of_nodup hnodup
  have h2 := Finset.card_le_card hsub
  have h3 := List.toFinset_card_le (l := fs)
  omega

/-- The filename actually written by `save_image`
(`src/venice_image_gen.py:115-128`): the candidate itself when no file of
that name exists, else the collision loop's result. -/
def savePath (fs : List Str) (candidate : Str) : Str :=
  if candidate ∈ fs then findFresh fs candidate 1 (fs.length + 1) else candidate

/-- C6: the path written when the candidate exists is `mkCand`, i.e. the
original stem and extension with `"_k"` inserted before the extension, at
the smallest counter `k ≥ 1` whose path does not exist; the returned path
never names a pre-existing file (and a fresh candidate is kept unchanged). -/
theorem C6_collision_suffix (fs : List Str) (candidate : Str) :
    savePath fs candidate ∉ fs ∧
    (candidate ∉ fs → savePath fs candidate = candidate) ∧
    (candidate ∈ fs →
      ∃ k, 1 ≤ k ∧ savePath fs candidate = mkCand candidate k ∧
        mkCand candidate k ∉ fs ∧
        ∀ j, 1 ≤ j → j < k → mkCand candidate j ∈ fs) := by
  by_cases hc : candidate ∈ fs
  · rcases findFresh_spec fs candidate (fs.length + 1) 1 (exists_fresh fs candidate) with
      ⟨j, hj, heq, hnot, hall⟩
    refine ⟨?_, fun h => absurd hc h, fun _ => ⟨1 + j, by omega, ?_, hnot, ?_⟩⟩
    · rw [savePath, if_pos hc, heq]
      exact hnot
    · rw [savePath, if_pos hc]
      exact heq
    · intro i h1 hik
      have hmem := hall (i - 1) (by omega)
      rwa [show 1 + (i - 1) = i by omega] at hmem
  · refine ⟨?_, fun _ => by rw [savePath, if_neg hc], fun h => absurd h hc⟩
    rw [savePath, if_neg hc]
    exact hc

/-- Witness for C6: with `x.png` and `x_1.png` both existing, the candidate
`x.png` is renamed to the counter-2 candidate `x_2.png`. -/
theorem C6_collision_suffix_witness :
    savePath [pyStr "x.png", pyStr "x_1.png"] (pyStr "x.png")
        ∉ [pyStr "x.png", pyStr "x_1.png"] ∧
    savePath [pyStr "x.png", pyStr "x_1.png"] (pyStr "x.png") = pyStr "x_2.png" ∧
    (∃ k, 1 ≤ k ∧
      savePath [pyStr "x.png", pyStr "x_1.png"] (pyStr "x.png")
        = mkCand (pyStr "x.png") k ∧
      mkCand (pyStr "x.png") k ∉ [pyStr "x.png", pyStr "x_1.png"] ∧
      ∀ j, 1 ≤ j → j < k → mkCand (pyStr "x.png") j ∈ [pyStr "x.png", pyStr "x_1.png"]) :=
  ⟨(C6_collision_suffix [pyStr "x.png", pyStr "x_1.png"] (pyStr "x.png")).1,
   by decide,
   (C6_collision_suffix [pyStr "x.png", pyStr "x_1.png"] (pyStr "x.png")).2.2 (by decide)⟩

lemma not_mem_of_mem_pySplit {sep : Nat} :
    ∀ {s : Str} {p : Str}, p ∈ pySplit sep s → sep ∉ p := by
  intro s
  induction s with
  | nil =>
    intro p hp
    simp only [pySplit, List.mem_singleton] at hp
    subst hp
    exact List.not_mem_nil sep
  | cons c cs ih =>
    intro p hp
    by_cases hc : c = sep
    · rw [pySplit, if_pos hc] at hp
      rcases List.mem_cons.mp hp with rfl | hp
      · exact List.not_mem_nil sep
      · exact ih hp
    · rw [pySplit, if_neg hc] at hp
      rcases hps : pySplit sep cs with _ | ⟨q, qs⟩
      · rw [hps] at hp
        rcases List.mem_cons.mp hp with rfl | hp
        · intro hm
          rcases List.mem_singleton.mp hm with rfl
          exact hc rfl
        · cases hp
      · rw [hps] at hp
        rcases List.mem_cons.mp hp with rfl | hp
        · intro hm
          rcases List.mem_cons.mp hm with rfl | hm
          · exact hc rfl
          · exact ih (hps ▸ List.mem_cons_self q qs) hm
        · exact ih (hps ▸ List.mem_cons_of_mem q hp)

lemma getLastD_no_sep {sep : Nat} :
    ∀ (l : List Str) (d : Str), (∀ p ∈ l, sep ∉ p) → sep ∉ d → sep ∉ l.getLastD d := by
  intro l
  induction l with
  | nil => intro d _ hd; exact hd
  | cons a l ih =>
    intro d hl _
    rw [List.getLastD_cons]
    exact ih a (fun p hp => hl p (List.mem_cons_of_mem a hp))
      (hl a (List.mem_cons_self a l))

lemma not_slash_pyName (p : Str) : 47 ∉ pyName p := by
  unfold pyName
  refine getLastD_no_sep _ _ ?_ (List.not_mem_nil 47)
  intro q hq
  exact not_mem_of_mem_pySplit (List.mem_of_mem_filter hq)

lemma not_slash_decDigits (k : Nat) : 47 ∉ decDigits k := by
  rw [decDigits, decDigitsAux_eq k k le_rfl]
  intro hm
  rcases List.mem_map.mp hm with ⟨d, _, hd⟩
  omega

lemma not_slash_mkCand (orig : Str) (k : Nat) : 47 ∉ mkCand orig k := by
  have hname := not_slash_pyName orig
  have hstem : 47 ∉ pyStem orig := by
    unfold pyStem
    split
    · split
      · exact fun hm => hname (List.take_subset _ _ hm)
      · exact hname
    · exact hname
  have hsuf : 47 ∉ pySuffix orig := by
    unfold pySuffix
    split
    · split
      · exact fun hm => hname (List.drop_subset _ _ hm)
      · exact List.not_mem_nil 47
    · exact List.not_mem_nil 47
  intro hm
  rcases List.mem_append.mp hm with hm | hm
  · rcases List.mem_append.mp hm with hm | hm
    · exact hstem hm
    · rcases List.mem_cons.mp hm with h95 | hm
      · cases h95
      · exact not_slash_decDigits k hm
  · exact hsuf hm

lemma findFresh_is_mkCand (fs : List Str) (orig : Str) :
    ∀ fuel counter, ∃ k, findFresh fs orig counter fuel = mkCand orig k := by
  intro fuel
  induction fuel with
  | zero => exact fun counter => ⟨counter, rfl⟩
  | succ f ih =>
    intro counter
    by_cases hc : mkCand orig counter ∈ fs
    · rcases ih (counter + 1) with ⟨k, hk⟩
      exact ⟨k, by rw [findFresh, if_pos hc, hk]⟩
    · exact ⟨counter, by rw [findFresh, if_neg hc]⟩

/-- C10: when a colliding candidate path contains a directory component,
every renamed candidate is built from the bare stem and extension only, so
the written path contains no `/` at all; in particular an existing
`dir/foo.png` is renamed to `foo_1.png`, relative to the working directory
rather than to `dir`. -/
theorem C10_rename_drops_directory (fs : List Str) (candidate : Str)
    (hc : candidate ∈ fs) :
    47 ∉ savePath fs candidate ∧
    savePath [pyStr "dir/foo.png"] (pyStr "dir/foo.png") = pyStr "foo_1.png" := by
  refine ⟨?_, by decide⟩
  rw [savePath, if_pos hc]
  rcases findFresh_is_mkCand fs candidate (fs.length + 1) 1 with ⟨k, hk⟩
  rw [hk]
  exact not_slash_mkCand candidate k

/-- Witness for C10 at the path `dir/foo.png` existing in the filesystem. -/
theorem C10_rename_drops_directory_witness :
    47 ∉ savePath [pyStr "dir/foo.png"] (pyStr "dir/foo.png") :=
  (C10_rename_drops_directory [pyStr "dir/foo.png"] (pyStr "dir/foo.png") (by decide)).1

/-! ### CLI driver: `main` (`src/venice_image_gen.py:171-291`)

The driver is modelled as a function of the parsed arguments and a `World`
describing the environment: the credential variable, the outcome of each
possible HTTP call, whether base64-decoding plus the file write succeed, and
the set of existing paths.  The returned `Outcome` records the process exit
code (an uncaught exception exits the interpreter with code 1, and argparse's
`parser.error` exits with code 2), whether any network call was made, the
error lines written to standard error (dynamic exception details are
modelled by the fixed message prefix), the path written, and the generation
payload sent, if any. -/

def msgNoKey : Str := pyStr "Error: VENICE_API_KEY environment variable is required"

def msgModelsErr : Str := pyStr "Error fetching models: "

def msgPromptRequired : Str :=
  pyStr "Prompt is required for image generation. Use --list-models to see available models."

def msgConflict : Str := pyStr "Cannot specify both --ar and --width/--height"

def msgInvalidAR (tok : Str) : Str := pyStr "Invalid aspect ratio: " ++ tok

def msgZeroDivTraceback : Str := pyStr "ZeroDivisionError: float division by zero"

def msgGenErr : Str := pyStr "Error generating image: "

def msgNoImages : Str := pyStr "No images returned from API"

def msgSaveErr : Str := pyStr "Error saving image: "

/-- The result of `argparse` parsing: unsupplied optional flags are `none`
(`None` in Python); `--format` defaults to `"jpeg"`, `--model` to
`"venice-sd35"`, and the `store_true` flags to `false`. -/
structure Args where
  list_models : Bool
  verbose : Bool
  prompt : Option Str
  model : Str
  negative_prompt : Option Str
  width : Option ℤ
  height : Option ℤ
  aspect_ratio : Option Str
  steps : Option ℤ
  cfg_scale : Option PyNum
  seed : Option ℤ
  style_preset : Option Str
  format : Str
  output : Option Str
  safe_mode : Bool
deriving DecidableEq

/-- The JSON body of a successful generation response: its `images` list and
optional `id` (the `timing` block only affects progress output). -/
structure ApiResult where
  images : List Str
  id : Option Str
deriving DecidableEq

/-- Behaviour of the `POST /image/generate` call. -/
inductive GenHttp where
  | err
  | ok (r : ApiResult)
deriving DecidableEq

/-- Behaviour of the `GET /models` call. -/
inductive ModelsHttp where
  | err
  | ok
deriving DecidableEq

/-- The environment of one invocation. -/
structure World where
  venice_api_key : Option Str
  models_http : ModelsHttp
  generate_http : GenHttp
  write_ok : Bool
  fs : List Str
deriving DecidableEq

/-- `**kwargs` of `generate_image`: for each key, `none` = key absent,
`some none` = key present with value `None`, `some (some v)` = value `v`. -/
structure GenKwargs where
  format : Option (Option Str)
  safe_mode : Option (Option Bool)
  negative_prompt : Option (Option Str)
  width : Option (Option ℤ)
  height : Option (Option ℤ)
  steps : Option (Option ℤ)
  cfg_scale : Option (Option PyNum)
  seed : Option (Option ℤ)
  style_preset : Option (Option Str)
deriving DecidableEq

/-- The JSON payload dictionary built by `generate_image`
(`src/venice_image_gen.py:77-95`): the first six keys are always present
(`format` and `safe_mode` may carry a JSON null if so supplied); for each
optional key, `none` = key omitted, `some none` = key set to null,
`some (some v)` = key set to `v`. -/
structure Payload where
  model : Str
  prompt : Str
  format : Option Str
  hide_watermark : Bool
  safe_mode : Option Bool
  return_binary : Bool
  negative_prompt : Option (Option Str)
  width : Option (Option ℤ)
  height : Option (Option ℤ)
  steps : Option (Option ℤ)
  cfg_scale : Option (Option PyNum)
  seed : Option (Option ℤ)
  style_preset : Option (Option Str)
deriving DecidableEq

/-- `if param in kwargs and kwargs[param] is not None: payload[param] = kwargs[param]`. -/
def addOptional {α : Type} (o : Option (Option α)) : Option (Option α) :=
  match o with
  | some (some v) => some (some v)
  | _ => none

/-- The payload construction of `generate_image`
(`src/venice_image_gen.py:77-95`). -/
def generate_image_payload (prompt model : Str) (k : GenKwargs) : Payload :=
  { model := model
    prompt := prompt
    format := k.format.getD (some (pyStr "jpeg"))
    hide_watermark := true
    safe_mode := k.safe_mode.getD (some false)
    return_binary := false
    negative_prompt := addOptional k.negative_prompt
    width := addOptional k.width
    height := addOptional k.height
    steps := addOptional k.steps
    cfg_scale := addOptional k.cfg_scale
    seed := addOptional k.seed
    style_preset := addOptional k.style_preset }

/-- Python truthiness of an optional string (`None` and `""` are falsy). -/
def truthyStr (o : Option Str) : Bool :=
  match o with
  | none => false
  | some s => !s.isEmpty

/-- Python truthiness of an optional int (`None` and `0` are falsy). -/
def truthyInt (o : Option ℤ) : Bool :=
  match o with
  | none => false
  | some n => !(n == 0)

/-- Python truthiness of an optional float (`None` and `0.0` are falsy). -/
def truthyNum (o : Option PyNum) : Bool :=
  match o with
  | none => false
  | some a => !(pyIsZero a)

/-- The outcome of one invocation of `main`. -/
structure Outcome where
  exitCode : Nat
  networkCalled : Bool
  stderr : List Str
  written : Option Str
  sentPayload : Option Payload
deriving DecidableEq

/-- `gen_params` as assembled in `main` (`src/venice_image_gen.py:249-267`):
`format` and `safe_mode` always; every other parameter only when truthy. -/
def buildGenParams (a : Args) (width height : Option ℤ) : GenKwargs :=
  { format := some (some a.format)
    safe_mode := some (some a.safe_mode)
    negative_prompt :=
      if truthyStr a.negative_prompt then some (some (a.negative_prompt.getD [])) else none
    width := if truthyInt width then some (some (width.getD 0)) else none
    height := if truthyInt height then some (some (height.getD 0)) else none
    steps := if truthyInt a.steps then some (some (a.steps.getD 0)) else none
    cfg_scale := if truthyNum a.cfg_scale then some (some (a.cfg_scale.getD ⟨0, 1⟩)) else none
    seed := if truthyInt a.seed then some (some (a.seed.getD 0)) else none
    style_preset :=
      if truthyStr a.style_preset then some (some (a.style_preset.getD [])) else none }

/-- The dimension-handling block of `main` (`src/venice_image_gen.py:236-246`):
a truthy `--ar` first checks the mutual exclusion against truthy
`--width`/`--height` (`parser.error` exits with status 2), then resolves the
token; an invalid token is also a `parser.error`, and a zero divisor is an
uncaught `ZeroDivisionError` (interpreter exit status 1). -/
def resolveDims (a : Args) : Except Outcome (Option ℤ × Option ℤ) :=
  if truthyStr a.aspect_ratio then
    if truthyInt a.width || truthyInt a.height then
      .error ⟨2, false, [msgConflict], none, none⟩
    else
      match parse_aspect_ratio (a.aspect_ratio.getD []) with
      | .ok w h => .ok (some w, some h)
      | .invalid => .error ⟨2, false, [msgInvalidAR (a.aspect_ratio.getD [])], none, none⟩
      | .zeroDiv => .error ⟨1, false, [msgZeroDivTraceback], none, none⟩
  else .ok (a.width, a.height)

/-- The generation-and-save tail of `main` (`src/venice_image_gen.py:269-291`)
together with `generate_image`'s error handling and `save_image`: POST the
payload; on HTTP failure exit 1; on an empty `images` list report and exit 1;
otherwise pick the output name (the `--output` value if truthy, else
`f"{image_id}.{format}"` with `image_id` defaulting to `"generated_image"`),
make it collision-free, and write it — a decode or write failure exits 1. -/
def generateAndSave (w : World) (a : Args) (width height : Option ℤ) : Outcome :=
  let payload := generate_image_payload (a.prompt.getD []) a.model (buildGenParams a width height)
  match w.generate_http with
  | .err => ⟨1, true, [msgGenErr], none, some payload⟩
  | .ok r =>
    if r.images.isEmpty then ⟨1, true, [msgNoImages], none, some payload⟩
    else
      let image_id := r.id.getD (pyStr "generated_image")
      let candidate := if truthyStr a.output then a.output.getD [] else image_id ++ 46 :: a.format
      if w.write_ok then ⟨0, true, [], some (savePath w.fs candidate), some payload⟩
      else ⟨1, true, [msgSaveErr], none, some payload⟩

/-- `main` (`src/venice_image_gen.py:171-291`): credential check (before
argument handling), `--list-models` mode, prompt requirement, dimension
resolution, then generation and saving. -/
def runMain (w : World) (a : Args) : Outcome :=
  if !truthyStr w.venice_api_key then ⟨1, false, [msgNoKey], none, none⟩
  else if a.list_models then
    match w.models_http with
    | .err => ⟨1, true, [msgModelsErr], none, none⟩
    | .ok => ⟨0, true, [], none, none⟩
  else if !truthyStr a.prompt then ⟨2, false, [msgPromptRequired], none, none⟩
  else
    match resolveDims a with
    | .error o => o
    | .ok (width, height) => generateAndSave w a width height

lemma addOptional_eq_some {α : Type} (o : Option (Option α)) (v : α) :
    addOptional o = some (some v) ↔ o = some (some v) := by
  rcases o with _ | (_ | x) <;> simp [addOptional]

lemma addOptional_ne_some_none {α : Type} (o : Option (Option α)) :
    addOptional o ≠ some none := by
  rcases o with _ | (_ | x) <;> simp [addOptional]

/-- C5: every payload carries `hide_watermark = true` and
`return_binary = false`; `format` defaults to `"jpeg"` and `safe_mode` to
`false` when their keys are absent; and each optional key is present in the
payload exactly when it was supplied with a non-null value — it is then
passed through unchanged, and is never set to null. -/
theorem C5_request_builder (prompt model : Str) (k : GenKwargs) :
    (generate_image_payload prompt model k).hide_watermark = true ∧
    (generate_image_payload prompt model k).return_binary = false ∧
    (k.format = none → (generate_image_payload prompt model k).format = some (pyStr "jpeg")) ∧
    (k.safe_mode = none → (generate_image_payload prompt model k).safe_mode = some false) ∧
    (∀ v, (generate_image_payload prompt model k).negative_prompt = some (some v) ↔
      k.negative_prompt = some (some v)) ∧
    (generate_image_payload prompt model k).negative_prompt ≠ some none ∧
    (∀ v, (generate_image_payload prompt model k).width = some (some v) ↔
      k.width = some (some v)) ∧
    (generate_image_payload prompt model k).width ≠ some none ∧
    (∀ v, (generate_image_payload prompt model k).height = some (some v) ↔
      k.height = some (some v)) ∧
    (generate_image_payload prompt model k).height ≠ some none ∧
    (∀ v, (generate_image_payload prompt model k).steps = some (some v) ↔
      k.steps = some (some v)) ∧
    (generate_image_payload prompt model k).steps ≠ some none ∧
    (∀ v, (generate_image_payload prompt model k).cfg_scale = some (some v) ↔
      k.cfg_scale = some (some v)) ∧
    (generate_image_payload prompt model k).cfg_scale ≠ some none ∧
    (∀ v, (generate_image_payload prompt model k).seed = some (some v) ↔
      k.seed = some (some v)) ∧
    (generate_image_payload prompt model k).seed ≠ some none ∧
    (∀ v, (generate_image_payload prompt model k).style_preset = some (some v) ↔
      k.style_preset = some (some v)) ∧
    (generate_image_payload prompt model k).style_preset ≠ some none :=
  ⟨rfl, rfl,
   fun h => by simp [generate_image_payload, h],
   fun h => by simp [generate_image_payload, h],
   fun v => addOptional_eq_some k.negative_prompt v,
   addOptional_ne_some_none k.negative_prompt,
   fun v => addOptional_eq_some k.width v,
   addOptional_ne_some_none k.width,
   fun v => addOptional_eq_some k.height v,
   addOptional_ne_some_none k.height,
   fun v => addOptional_eq_some k.steps v,
   addOptional_ne_some_none k.steps,
   fun v => addOptional_eq_some k.cfg_scale v,
   addOptional_ne_some_none k.cfg_scale,
   fun v => addOptional_eq_some k.seed v,
   addOptional_ne_some_none k.seed,
   fun v => addOptional_eq_some k.style_preset v,
   addOptional_ne_some_none k.style_preset⟩

/-- Witness for C5: an empty kwargs set yields the defaults, and a supplied
width appears in the payload. -/
theorem C5_request_builder_witness :
    (generate_image_payload (pyStr "p") (pyStr "m")
        ⟨none, none, none, none, none, none, none, none, none⟩).format
      = some (pyStr "jpeg") ∧
    (generate_image_payload (pyStr "p") (pyStr "m")
        ⟨none, none, none, none, none, none, none, none, none⟩).safe_mode
      = some false ∧
    ((generate_image_payload (pyStr "p") (pyStr "m")
        ⟨none, none, none, some (some 512), none, none, none, none, none⟩).width
      = some (some 512) ↔
      (⟨none, none, none, some (some 512), none, none, none, none, none⟩ : GenKwargs).width
      = some (some 512)) :=
  ⟨(C5_request_builder (pyStr "p") (pyStr "m") _).2.2.1 rfl,
   (C5_request_builder (pyStr "p") (pyStr "m") _).2.2.2.1 rfl,
   (C5_request_builder (pyStr "p") (pyStr "m") _).2.2.2.2.2.2.1 512⟩

lemma resolveDims_error {a : Args} {o : Outcome} (h : resolveDims a = .error o) :
    o.sentPayload = none ∧ o.exitCode ≠ 0 ∧ o.written = none ∧ o.networkCalled = false := by
  unfold resolveDims at h
  split at h
  · split at h
    · injection h with h
      subst h
      exact ⟨rfl, by norm_num, rfl, rfl⟩
    · split at h
      · cases h
      · injection h with h
        subst h
        exact ⟨rfl, by norm_num, rfl, rfl⟩
      · injection h with h
        subst h
        exact ⟨rfl, by norm_num, rfl, rfl⟩
  · cases h

lemma generateAndSave_sent (w : World) (a : Args) (width height : Option ℤ) :
    (generateAndSave w a width height).sentPayload
      = some (generate_image_payload (a.prompt.getD []) a.model
          (buildGenParams a width height)) ∧
    (generateAndSave w a width height).networkCalled = true := by
  unfold generateAndSave
  split
  · exact ⟨rfl, rfl⟩
  · split
    · exact ⟨rfl, rfl⟩
    · split <;> split <;> exact ⟨rfl, rfl⟩

lemma generateAndSave_writeFail (w : World) (a : Args) (width height : Option ℤ)
    (h : w.write_ok = false) : (generateAndSave w a width height).exitCode = 1 := by
  unfold generateAndSave
  split
  · rfl
  · split
    · rfl
    · simp only [h]
      rfl

lemma generateAndSave_exit0 (w : World) (a : Args) (width height : Option ℤ) :
    (generateAndSave w a width height).exitCode = 0 →
    (generateAndSave w a width height).written.isSome = true := by
  unfold generateAndSave
  split
  · intro h; simp at h
  · split
    · intro h; simp at h
    · split <;> split <;> intro h
      · rfl
      · simp at h
      · rfl
      · simp at h

lemma runMain_shape (w : World) (a : Args) :
    ((runMain w a).sentPayload = none ∧ (runMain w a).written = none ∧
      ((runMain w a).exitCode = 0 →
        a.list_models = true ∧ w.models_http = .ok ∧ (runMain w a).networkCalled = true)) ∨
    (∃ width height, runMain w a = generateAndSave w a width height) := by
  unfold runMain
  split
  · exact Or.inl ⟨rfl, rfl, by intro h; cases h⟩
  · split
    · next hlist =>
      split
      · exact Or.inl ⟨rfl, rfl, by intro h; cases h⟩
      · next heq =>
        exact Or.inl ⟨rfl, rfl, fun _ => ⟨hlist, heq, rfl⟩⟩
    · split
      · exact Or.inl ⟨rfl, rfl, by intro h; cases h⟩
      · split
        · next o herr =>
          rcases resolveDims_error herr with ⟨h1, h2, h3, _⟩
          exact Or.inl ⟨h1, h3, fun h0 => absurd h0 h2⟩
        · next width height heq =>
          exact Or.inr ⟨width, height, rfl⟩

/-- C7: when the generation POST succeeds but the response's `images` list is
empty, the invocation writes "No images returned from API" to standard error
and exits with status 1, writing no output file. -/
theorem C7_empty_images (w : World) (a : Args) (width height : Option ℤ) (r : ApiResult)
    (hkey : truthyStr w.venice_api_key = true)
    (hlist : a.list_models = false)
    (hprompt : truthyStr a.prompt = true)
    (hdims : resolveDims a = .ok (width, height))
    (hgen : w.generate_http = .ok r)
    (himg : r.images = []) :
    runMain w a = ⟨1, true, [msgNoImages], none,
      some (generate_image_payload (a.prompt.getD []) a.model
        (buildGenParams a width height))⟩ := by
  unfold runMain generateAndSave
  rw [hkey, hlist, hprompt, hdims, hgen]
  simp [himg]

/-- Witness for C7: a concrete run whose successful response carries no
images. -/
theorem C7_empty_images_witness :
    runMain
      { venice_api_key := some (pyStr "k"), models_http := .ok,
        generate_http := .ok ⟨[], none⟩, write_ok := true, fs := [] }
      { list_models := false, verbose := false, prompt := some (pyStr "hi"),
        model := pyStr "venice-sd35", negative_prompt := none, width := none,
        height := none, aspect_ratio := none, steps := none, cfg_scale := none,
        seed := none, style_preset := none, format := pyStr "jpeg",
        output := none, safe_mode := false }
    = ⟨1, true, [msgNoImages], none,
        some (generate_image_payload (pyStr "hi") (pyStr "venice-sd35")
          (buildGenParams
            { list_models := false, verbose := false, prompt := some (pyStr "hi"),
              model := pyStr "venice-sd35", negative_prompt := none, width := none,
              height := none, aspect_ratio := none, steps := none, cfg_scale := none,
              seed := none, style_preset := none, format := pyStr "jpeg",
              output := none, safe_mode := false } none none))⟩ :=
  C7_empty_images _ _ none none ⟨[], none⟩
    (by decide) (by decide) (by decide) rfl rfl rfl

/-- C9: optional command-line parameters supplied with a falsy value —
`--width 0`, `--height 0`, `--steps 0`, `--seed 0`, `--cfg-scale 0`, an
empty `--negative-prompt` — make the whole invocation behave exactly as if
the flag had not been supplied (in particular they are omitted from the
outgoing payload); and with a truthy `--ar`, `--width 0` resolves dimensions
exactly as no `--width` at all, so it does not trigger the
mutual-exclusion error. -/
theorem C9_falsy_optionals_dropped (w : World) (a : Args) :
    runMain w { a with width := some 0 } = runMain w { a with width := none } ∧
    runMain w { a with height := some 0 } = runMain w { a with height := none } ∧
    runMain w { a with steps := some 0 } = runMain w { a with steps := none } ∧
    runMain w { a with seed := some 0 } = runMain w { a with seed := none } ∧
    runMain w { a with cfg_scale := some ⟨0, 1⟩ } = runMain w { a with cfg_scale := none } ∧
    runMain w { a with negative_prompt := some [] }
      = runMain w { a with negative_prompt := none } ∧
    (truthyStr a.aspect_ratio = true →
      resolveDims { a with width := some 0 } = resolveDims { a with width := none }) := by
  have hres : truthyStr a.aspect_ratio = true →
      resolveDims { a with width := some 0 } = resolveDims { a with width := none } := by
    intro har
    simp [resolveDims, har, truthyInt]
  have hresh : truthyStr a.aspect_ratio = true →
      resolveDims { a with height := some 0 } = resolveDims { a with height := none } := by
    intro har
    simp [resolveDims, har, truthyInt]
  refine ⟨?_, ?_, rfl, rfl, rfl, rfl, hres⟩
  · cases har : truthyStr a.aspect_ratio with
    | false =>
      simp only [runMain, resolveDims, har]
      rfl
    | true =>
      simp only [runMain, hres har]
      rfl
  · cases har : truthyStr a.aspect_ratio with
    | false =>
      simp only [runMain, resolveDims, har]
      rfl
    | true =>
      simp only [runMain, hresh har]
      rfl

/-- C1 (amended): every fatal condition terminates with a **nonzero** exit
code, and exit code 0 occurs only on success — but the code is 1 only for a
missing/empty credential, HTTP failures, an empty image list, and a
decode/write failure, while the `--ar`/`--width`-`--height` conflict and a
missing prompt go through argparse's `parser.error`, which exits with
status **2** (not 1 as claimed).  The conflict is still reported before any
network call. -/
theorem C1_exit_code_policy (w : World) (a : Args) :
    (truthyStr w.venice_api_key = false →
      runMain w a = ⟨1, false, [msgNoKey], none, none⟩) ∧
    (truthyStr w.venice_api_key = true → a.list_models = true → w.models_http = .err →
      runMain w a = ⟨1, true, [msgModelsErr], none, none⟩) ∧
    (truthyStr w.venice_api_key = true → a.list_models = false →
      truthyStr a.prompt = false →
      runMain w a = ⟨2, false, [msgPromptRequired], none, none⟩) ∧
    (truthyStr w.venice_api_key = true → a.list_models = false →
      truthyStr a.prompt = true → truthyStr a.aspect_ratio = true →
      (truthyInt a.width || truthyInt a.height) = true →
      runMain w a = ⟨2, false, [msgConflict], none, none⟩) ∧
    ((runMain w a).sentPayload.isSome = true → w.generate_http = .err →
      (runMain w a).exitCode = 1) ∧
    (∀ r, (runMain w a).sentPayload.isSome = true → w.generate_http = .ok r →
      r.images = [] → (runMain w a).exitCode = 1) ∧
    ((runMain w a).sentPayload.isSome = true → w.write_ok = false →
      (runMain w a).exitCode = 1) ∧
    ((runMain w a).exitCode = 0 →
      (runMain w a).written.isSome = true ∨
        (a.list_models = true ∧ w.models_http = .ok ∧
          (runMain w a).networkCalled = true)) := by
  refine ⟨?_, ?_, ?_, ?_, ?_, ?_, ?_, ?_⟩
  · intro h
    simp [runMain, h]
  · intro hk hl hm
    simp [runMain, hk, hl, hm]
  · intro hk hl hp
    simp [runMain, hk, hl, hp]
  · intro hk hl hp har hwh
    simp [runMain, resolveDims, hk, hl, hp, har, hwh]
  · intro hsent herr
    rcases runMain_shape w a with ⟨h1, _, _⟩ | ⟨wd, ht, heq⟩
    · rw [h1] at hsent
      cases hsent
    · rw [heq]
      simp [generateAndSave, herr]
  · intro r hsent hok himg
    rcases runMain_shape w a with ⟨h1, _, _⟩ | ⟨wd, ht, heq⟩
    · rw [h1] at hsent
      cases hsent
    · rw [heq]
      simp [generateAndSave, hok, himg]
  · intro hsent hwf
    rcases runMain_shape w a with ⟨h1, _, _⟩ | ⟨wd, ht, heq⟩
    · rw [h1] at hsent
      cases hsent
    · rw [heq]
      exact generateAndSave_writeFail w a wd ht hwf
  · intro h0
    rcases runMain_shape w a with ⟨h1, h2, h3⟩ | ⟨wd, ht, heq⟩
    · exact Or.inr (h3 h0)
    · rw [heq] at h0 ⊢
      exact Or.inl (generateAndSave_exit0 w a wd ht h0)

/-- A parsed argument set with both `--ar square` and `--width 512`. -/
def argsConflictExample : Args :=
  { list_models := false, verbose := false, prompt := some (pyStr "hi"),
    model := pyStr "venice-sd35", negative_prompt := none, width := some 512,
    height := none, aspect_ratio := some (pyStr "square"), steps := none,
    cfg_scale := none, seed := none, style_preset := none,
    format := pyStr "jpeg", output := none, safe_mode := false }

/-- An environment with a credential present and a healthy network. -/
def worldOkExample : World :=
  { venice_api_key := some (pyStr "k"), models_http := .ok,
    generate_http := .ok ⟨[], none⟩, write_ok := true, fs := [] }

/-- Counterexample to C1 as stated: `--ar square --width 512` is reported
before any network call, but with exit code 2 (argparse's `parser.error`
status), not 1. -/
theorem C1_exit_one_counterexample :
    runMain worldOkExample argsConflictExample = ⟨2, false, [msgConflict], none, none⟩ ∧
    (runMain worldOkExample argsConflictExample).exitCode ≠ 1 := by
  exact ⟨by decide, by decide⟩

/-- Witness for C1: the missing-credential, conflict, and empty-image-list
branches at concrete inputs. -/
theorem C1_exit_code_policy_witness :
    runMain { worldOkExample with venice_api_key := none } argsConflictExample
      = ⟨1, false, [msgNoKey], none, none⟩ ∧
    runMain worldOkExample argsConflictExample = ⟨2, false, [msgConflict], none, none⟩ ∧
    (runMain worldOkExample { argsConflictExample with width := none }).exitCode = 1 :=
  ⟨(C1_exit_code_policy _ _).1 (by decide),
   (C1_exit_code_policy _ _).2.2.2.1 (by decide) (by decide) (by decide) (by decide)
     (by decide),
   (C1_exit_code_policy _ _).2.2.2.2.2.1 ⟨[], none⟩ (by decide) (by decide) (by decide)⟩

/-- Witness for C9: with `--ar square` set, `--width 0` and no `--width`
give the same run and the same dimension resolution. -/
theorem C9_falsy_optionals_dropped_witness :
    runMain worldOkExample { argsConflictExample with width := some 0 }
      = runMain worldOkExample { argsConflictExample with width := none } ∧
    resolveDims { argsConflictExample with width := some 0 }
      = resolveDims { argsConflictExample with width := none } :=
  ⟨(C9_falsy_optionals_dropped worldOkExample argsConflictExample).1,
   (C9_falsy_optionals_dropped worldOkExample argsConflictExample).2.2.2.2.2.2 (by decide)⟩
